import Mathlib

set_option maxRecDepth 100000

/-!
Verification of the artifact-materialization scripts of
`Autonomous_Football_Game_V5`.

The repository consists of seven Python scripts
(`classic_rescue.py`, `fix_full_game.py`, `fix_workflow.py`,
`force_v4_update.py`, `modern_architect.py`, `modern_fix.py`,
`ultimate_fix.py`).  Each one writes a fixed set of build-configuration
files from hard-coded string templates and then (in five of the seven)
shells out to `git add` / `git commit` / `git push --force`.

The embedding models the effects these scripts have:

* the file system is a map from relative path strings to optional file
  contents, together with a set of existing directories (`FS`);
* each script is the literal sequence of its effectful statements
  (`Step`): `open(p, "w").write(c)`, `os.makedirs(d, exist_ok=True)`,
  the guarded `if os.path.exists(p): os.remove(p)`, and
  `os.system(cmd)`.  `print` statements produce console output only and
  have no effect on the file system or on version control, so they are
  not modelled;
* `time.time()` reads are modelled by string parameters of the script,
  one parameter per textual occurrence of a clock read, holding the
  already-formatted value that the read produced;
* a write can fail for external reasons (permissions, disk full); the
  oracle `w : String → Bool` says which paths are externally writable.
  A write also fails when the parent directory of its path does not
  exist, exactly as Python's `open(p, "w")` does;
* `os.system` consults the environment `e : String → Int` for the exit
  status of the command; the scripts discard that status;
* a failing step aborts the run at that point (`RunResult.err`),
  exactly as an uncaught Python exception terminates the script.
-/

/-- Split a list of characters at every slash; auxiliary accumulator form. -/
def splitSlashAux : List Char → List Char → List (List Char)
  | acc, [] => [acc.reverse]
  | acc, c :: cs =>
      if c = '/' then acc.reverse :: splitSlashAux [] cs
      else splitSlashAux (c :: acc) cs

/-- The slash-separated components of a relative path. -/
def components (p : String) : List String :=
  (splitSlashAux [] p.toList).map (fun cs => String.mk cs)

/-- Join path components with slashes, inverse of `components` on
component lists without empty or slash-holding entries. -/
def joinSlash : List String → String
  | [] => ""
  | [s] => s
  | s :: rest => s ++ "/" ++ joinSlash rest

/-- `os.path.dirname`: everything before the last slash, `""` when the
path has a single component (a file directly in the working directory). -/
def dirname (p : String) : String :=
  joinSlash (components p).dropLast

/-- The chain of directories `os.makedirs` creates for `d`: every
nonempty component-list prefix of `d`. -/
def ancestors (d : String) : List String :=
  (List.range (components d).length).map (fun i => joinSlash ((components d).take (i + 1)))

/-- The file-system state a script acts on: which directories exist
(relative to the working directory, which itself always exists) and
which files exist with which full content. -/
structure FS where
  dirs : String → Bool
  files : String → Option String

/-- Truncating write: afterwards `p` holds exactly `c`; every other path
is untouched. -/
def FS.writeFile (fs : FS) (p c : String) : FS :=
  { fs with files := fun q => if q = p then some c else fs.files q }

/-- Remove the file at `p`. -/
def FS.eraseFile (fs : FS) (p : String) : FS :=
  { fs with files := fun q => if q = p then none else fs.files q }

/-- `os.makedirs(d, exist_ok=True)`: `d` and all its ancestors exist
afterwards. -/
def FS.mkdirs (fs : FS) (d : String) : FS :=
  { fs with dirs := fun q => (ancestors d).contains q || fs.dirs q }

/-- Whether `open(p, "w")` finds the directory it needs: the parent of
`p` is the working directory or an existing directory. -/
def FS.parentOk (fs : FS) (p : String) : Bool :=
  dirname p == "" || fs.dirs (dirname p)

/-- `os.path.exists`: a file or a directory is present at `p`. -/
def FS.pathExists (fs : FS) (p : String) : Bool :=
  (fs.files p).isSome || fs.dirs p

/-- `os.remove(p)`: fails (raises) when no file is at `p`. -/
def osRemove (fs : FS) (p : String) : Option FS :=
  match fs.files p with
  | some _ => some (fs.eraseFile p)
  | none => none

/-- Observable effects of a run, in order of occurrence. -/
inductive Event where
  | writeEv (path content : String)
  | removeEv (path : String)
  | systemEv (cmd : String)
  deriving DecidableEq

/-- Does the event invoke the external version-control system? -/
def Event.isSystem : Event → Bool
  | .systemEv _ => true
  | _ => false

/-- The effectful statement forms occurring in the scripts. -/
inductive Step where
  | write (path content : String)
  | makedirs (dir : String)
  | ifExistsRemove (path : String)
  | system (cmd : String)
  deriving DecidableEq

/-- One statement.  `none` means the statement raised.  `w` is the
external writability oracle, `e` the exit-status environment of
`os.system`; the scripts never look at the returned status, which the
`let` below makes explicit. -/
def runStep (w : String → Bool) (e : String → Int) (fs : FS) : Step → Option (FS × List Event)
  | .write p c =>
      if fs.parentOk p && w p then some (fs.writeFile p c, [.writeEv p c]) else none
  | .makedirs d => some (fs.mkdirs d, [])
  | .ifExistsRemove p =>
      if fs.pathExists p then (osRemove fs p).map (fun fs2 => (fs2, [.removeEv p]))
      else some (fs, [])
  | .system cmd =>
      let _status : Int := e cmd
      some (fs, [.systemEv cmd])

/-- Outcome of a run: the final file system and the event trace, and
whether the run finished (`ok`) or aborted on a raised error (`err`). -/
inductive RunResult where
  | ok (fs : FS) (trace : List Event)
  | err (fs : FS) (trace : List Event)

/-- Did the run finish without an uncaught error? -/
def RunResult.isOk : RunResult → Bool
  | .ok _ _ => true
  | .err _ _ => false

/-- The file system when the run stopped (normally or on an error). -/
def RunResult.fsOf : RunResult → FS
  | .ok fs _ => fs
  | .err fs _ => fs

/-- The events the run performed before it stopped. -/
def RunResult.traceOf : RunResult → List Event
  | .ok _ tr => tr
  | .err _ tr => tr

/-- Run statements in order, accumulating the trace; stop at the first
raising statement. -/
def runSteps (w : String → Bool) (e : String → Int) : FS → List Event → List Step → RunResult
  | fs, tr, [] => .ok fs tr
  | fs, tr, s :: rest =>
      match runStep w e fs s with
      | some (fs2, evs) => runSteps w e fs2 (tr ++ evs) rest
      | none => .err fs tr

/-- Run a whole script from an initial file system. -/
def runScript (w : String → Bool) (e : String → Int) (fs : FS) (steps : List Step) : RunResult :=
  runSteps w e fs [] steps

namespace classic_rescue

/-- `settings_content` of `classic_rescue.py` (line 7). -/
def settings_content : String :=
  "rootProject.name = \"Autonomous_Football_Game_V5\"\ninclude \x27:app\x27\n"

/-- Fixed part of `root_build_content` before the `str(time.time())`
splice (line 14). -/
def root_build_pre : String :=
  "// تم التحديث بتاريخ: "

/-- Fixed part of `root_build_content` after the `str(time.time())`
splice (lines 14-36). -/
def root_build_suf : String :=
  "\nbuildscript \x7b\n    repositories \x7b\n        google()\n        mavenCentral()\n    \x7d\n    dependencies \x7b\n        // نستخدم النسخة 8.1.0 المستقرة\n        classpath \x27com.android.tools.build:gradle:8.1.0\x27\n    \x7d\n\x7d\n\nallprojects \x7b\n    repositories \x7b\n        google()\n        mavenCentral()\n    \x7d\n\x7d\n\ntask clean(type: Delete) \x7b\n    delete rootProject.buildDir\n\x7d\n"

/-- `root_build_content` of `classic_rescue.py` (line 14): a string
concatenation embedding `str(time.time())`, here the parameter `t`. -/
def root_build_content (t : String) : String :=
  root_build_pre ++ t ++ root_build_suf

/-- `app_build_content` of `classic_rescue.py` (line 41). -/
def app_build_content : String :=
  "apply plugin: \x27com.android.application\x27\n\nandroid \x7b\n    namespace \x27com.ai.autonomous.game\x27\n    compileSdk 34\n\n    defaultConfig \x7b\n        applicationId \"com.ai.autonomous.game\"\n        minSdk 24\n        targetSdk 34\n        versionCode 1\n        versionName \"1.0\"\n\n        externalNativeBuild \x7b\n            cmake \x7b\n                cppFlags \"-std=c++20\"\n            \x7d\n        \x7d\n    \x7d\n\n    externalNativeBuild \x7b\n        cmake \x7b\n            path \"src/main/cpp/CMakeLists.txt\"\n        \x7d\n    \x7d\n    \n    ndkVersion \"25.1.8937393\"\n\x7d\n\ndependencies \x7b\n    // إضافة مكتبات أساسية لمنع أخطاء التشغيل\n    implementation \x27androidx.appcompat:appcompat:1.6.1\x27\n    implementation \x27com.google.android.material:material:1.9.0\x27\n\x7d\n"

/-- The effectful statements of `classic_rescue.py` in program order
(`print` statements are console output only and are not modelled).
`t` is the string `str(time.time())` produced by the single clock read
at line 14. -/
def steps (t : String) : List Step :=
  [ .write "settings.gradle" settings_content,
    .write "build.gradle" (root_build_content t),
    .write "app/build.gradle" app_build_content,
    .system "git add .",
    .system "git commit -m \"Fix: Revert to Classic Gradle Layout to fix build error\"",
    .system "git push origin main --force" ]

end classic_rescue

namespace fix_full_game

/-- `gradle_build_content` of `fix_full_game.py` (line 4). -/
def gradle_build_content : String :=
  "\nplugins \x7b\n    id \x27com.android.application\x27 version \x278.1.0\x27\n\x7d\n\nandroid \x7b\n    namespace \x27com.autonomous.football\x27\n    compileSdk 33\n\n    defaultConfig \x7b\n        applicationId \"com.autonomous.football\"\n        minSdk 24\n        targetSdk 33\n        versionCode 1\n        versionName \"1.0\"\n    \x7d\n\x7d\n"

/-- `workflow_content` of `fix_full_game.py` (line 24). -/
def workflow_content : String :=
  "name: Ultimate Build\non: [push]\njobs:\n  build:\n    runs-on: ubuntu-latest\n    steps:\n      - uses: actions/checkout@v3\n      \n      - name: Setup Java 17\n        uses: actions/setup-java@v3\n        with:\n          distribution: \x27temurin\x27\n          java-version: \x2717\x27\n          \n      - name: Setup Gradle\n        uses: gradle/gradle-build-action@v2\n        with:\n          gradle-version: \x278.2\x27\n          \n      - name: Create wrapper\n        run: gradle wrapper\n        \n      - name: Build APK\n        run: ./gradlew assembleDebug\n        \n      - name: Upload APK\n        uses: actions/upload-artifact@v3\n        with:\n          name: Final-Game-APK\n          path: app/build/outputs/apk/debug/app-debug.apk\n"

/-- The effectful statements of `fix_full_game.py` in program order:
the `app/build.gradle` write (line 57) is NOT preceded by any directory
creation; `os.makedirs(".github/workflows", exist_ok=True)` (line 60)
precedes only the workflow write (line 61).  No version-control commands
are run by this script. -/
def steps : List Step :=
  [ .write "app/build.gradle" gradle_build_content,
    .makedirs ".github/workflows",
    .write ".github/workflows/android.yml" workflow_content ]

end fix_full_game

namespace fix_workflow

/-- `workflow_content` of `fix_workflow.py` (line 4). -/
def workflow_content : String :=
  "name: Final Victory Build\non: [push]\njobs:\n  build:\n    runs-on: ubuntu-latest\n    steps:\n      - uses: actions/checkout@v4\n      \n      - name: Setup Java 17\n        uses: actions/setup-java@v4\n        with:\n          distribution: \x27temurin\x27\n          java-version: \x2717\x27\n          \n      - name: Setup Gradle\n        uses: gradle/gradle-build-action@v2\n        with:\n          gradle-version: \x278.2\x27\n          \n      - name: Build APK\n        run: gradle assembleDebug\n        \n      - name: Upload APK\n        uses: actions/upload-artifact@v4\n        with:\n          name: Final-Game-APK\n          path: app/build/outputs/apk/debug/app-debug.apk\n"

/-- The single effectful statement of `fix_workflow.py` (line 34): it
opens `.github/workflows/android.yml` for writing WITHOUT any
`os.makedirs` call, so the write raises when `.github/workflows` does
not already exist.  No version-control commands are run. -/
def steps : List Step :=
  [ .write ".github/workflows/android.yml" workflow_content ]

end fix_workflow

namespace force_v4_update

/-- `yaml_content` of `force_v4_update.py` (line 4). -/
def yaml_content : String :=
  "name: Final Fix Actions V4\non: [push, workflow_dispatch]\njobs:\n  build:\n    runs-on: ubuntu-latest\n    steps:\n      - uses: actions/checkout@v4\n      \n      - name: Setup JDK 17\n        uses: actions/setup-java@v4\n        with:\n          java-version: \x2717\x27\n          distribution: \x27temurin\x27\n\n      - name: Setup Gradle 8.2\n        uses: gradle/actions/setup-gradle@v3\n        with:\n          gradle-version: \x278.2\x27\n          \n      - name: Setup Android SDK\n        uses: android-actions/setup-android@v3\n\n      - name: Build APK\n        run: gradle assembleDebug --no-daemon --stacktrace\n        \n      - name: Upload APK\n        if: success()\n        uses: actions/upload-artifact@v4\n        with:\n          name: WORKING-GAME-APK\n          path: app/build/outputs/apk/debug/app-debug.apk\n"

/-- `file_path` of `force_v4_update.py` (line 38). -/
def file_path : String := ".github/workflows/android.yml"

/-- The effectful statements of `force_v4_update.py` in program order:
the guarded delete `if os.path.exists(file_path): os.remove(file_path)`
(lines 39-40), `os.makedirs(os.path.dirname(file_path), exist_ok=True)`
(line 44), the workflow write (lines 47-48), then the three
version-control commands (lines 53-55). -/
def steps : List Step :=
  [ .ifExistsRemove file_path,
    .makedirs (dirname file_path),
    .write file_path yaml_content,
    .system "git add .",
    .system "git commit -m \"Force Update: Rewrite workflow with Actions V4\"",
    .system "git push origin main --force" ]

end force_v4_update

namespace modern_architect

/-- `settings_content` of `modern_architect.py` (line 7). -/
def settings_content : String :=
  "pluginManagement \x7b\n    repositories \x7b\n        google()\n        mavenCentral()\n        gradlePluginPortal()\n    \x7d\n\x7d\ndependencyResolutionManagement \x7b\n    repositoriesMode.set(RepositoriesMode.FAIL_ON_PROJECT_REPOS)\n    repositories \x7b\n        google()\n        mavenCentral()\n    \x7d\n\x7d\nrootProject.name = \"Autonomous_Football_Game_V5\"\ninclude \x27:app\x27\n"

/-- `root_build_content` of `modern_architect.py` (line 30). -/
def root_build_content : String :=
  "plugins \x7b\n    id \x27com.android.application\x27 version \x278.1.0\x27 apply false\n\x7d\n"

/-- `app_build_content` of `modern_architect.py` (line 39). -/
def app_build_content : String :=
  "plugins \x7b\n    id \x27com.android.application\x27\n\x7d\n\nandroid \x7b\n    namespace \x27com.ai.autonomous.game\x27\n    compileSdk 34\n\n    defaultConfig \x7b\n        applicationId \"com.ai.autonomous.game\"\n        minSdk 24\n        targetSdk 34\n        versionCode 1\n        versionName \"1.0\"\n\n        externalNativeBuild \x7b\n            cmake \x7b\n                cppFlags \"-std=c++20\"\n            \x7d\n        \x7d\n    \x7d\n\n    externalNativeBuild \x7b\n        cmake \x7b\n            path \"src/main/cpp/CMakeLists.txt\"\n        \x7d\n    \x7d\n    \n    // تحديد إصدار NDK لتجنب المشاكل\n    ndkVersion \"25.1.8937393\"\n\x7d\n"

/-- The effectful statements of `modern_architect.py` in program order:
three writes (lines 25, 35, 72), then the three version-control
commands (lines 79-81).  No clock read occurs in this script. -/
def steps : List Step :=
  [ .write "settings.gradle" settings_content,
    .write "build.gradle" root_build_content,
    .write "app/build.gradle" app_build_content,
    .system "git add .",
    .system "git commit -m \"Refactor: Switch to Modern Gradle Plugins DSL\"",
    .system "git push origin main --force" ]

end modern_architect

namespace modern_fix

/-- `settings_content` of `modern_fix.py` (line 9). -/
def settings_content : String :=
  "pluginManagement \x7b\n    repositories \x7b\n        google()\n        mavenCentral()\n        gradlePluginPortal()\n    \x7d\n\x7d\ndependencyResolutionManagement \x7b\n    repositoriesMode.set(RepositoriesMode.FAIL_ON_PROJECT_REPOS)\n    repositories \x7b\n        google()\n        mavenCentral()\n    \x7d\n\x7d\nrootProject.name = \"Autonomous_Football_Game_V5\"\ninclude \x27:app\x27\n"

/-- `root_build_content` of `modern_fix.py` (line 35). -/
def root_build_content : String :=
  "plugins \x7b\n    // نحدد نسخة الأندرويد هنا مرة واحدة فقط (8.1.0)\n    id \x27com.android.application\x27 version \x278.1.0\x27 apply false\n\x7d\n"

/-- `app_build_content` of `modern_fix.py` (line 48). -/
def app_build_content : String :=
  "plugins \x7b\n    id \x27com.android.application\x27\n\x7d\n\nandroid \x7b\n    namespace \x27com.ai.autonomous.game\x27\n    compileSdk 34\n\n    defaultConfig \x7b\n        applicationId \"com.ai.autonomous.game\"\n        minSdk 24\n        targetSdk 34\n        versionCode 1\n        versionName \"1.0\"\n\n        externalNativeBuild \x7b\n            cmake \x7b\n                cppFlags \"-std=c++20\"\n            \x7d\n        \x7d\n    \x7d\n\n    externalNativeBuild \x7b\n        cmake \x7b\n            path \"src/main/cpp/CMakeLists.txt\"\n        \x7d\n    \x7d\n    \n    // إجبار النظام على استخدام نسخة NDK محددة لمنع الأخطاء المستقبلية\n    ndkVersion \"25.1.8937393\"\n\x7d\n"

/-- The effectful statements of `modern_fix.py` in program order: three
writes (lines 27, 41, 81), then the three version-control commands
(lines 90-92).  No directory is created before the `app/build.gradle`
write, and no clock read occurs in this script. -/
def steps : List Step :=
  [ .write "settings.gradle" settings_content,
    .write "build.gradle" root_build_content,
    .write "app/build.gradle" app_build_content,
    .system "git add .",
    .system "git commit -m \"Refactor: Force switch to Modern Gradle Plugins DSL\"",
    .system "git push origin main --force" ]

end modern_fix

namespace ultimate_fix

/-- Fixed part of `workflow_content` before the `int(time.time())`
splice (lines 11-41 of `ultimate_fix.py`). -/
def workflow_pre : String :=
  "name: Ultimate Build V4\non: [push, workflow_dispatch]\njobs:\n  build:\n    runs-on: ubuntu-latest\n    steps:\n      - uses: actions/checkout@v4\n      \n      - name: Setup JDK 17\n        uses: actions/setup-java@v4\n        with:\n          java-version: \x2717\x27\n          distribution: \x27temurin\x27\n\n      - name: Setup Gradle 8.2\n        uses: gradle/actions/setup-gradle@v3\n        with:\n          gradle-version: \x278.2\x27\n          \n      - name: Setup Android SDK\n        uses: android-actions/setup-android@v3\n\n      - name: Build APK\n        run: gradle assembleDebug --no-daemon --stacktrace\n        \n      # هنا الحل: نستخدم الإصدار v4 حصرياً\n      - name: Upload APK\n        if: success()\n        uses: actions/upload-artifact@v4\n        with:\n          name: FINAL-GAME-APK-"

/-- Fixed part of `workflow_content` after the `int(time.time())`
splice (lines 41-43). -/
def workflow_suf : String :=
  "\n          path: app/build/outputs/apk/debug/app-debug.apk\n"

/-- `workflow_content` of `ultimate_fix.py` (lines 11-43): an f-string
embedding `int(time.time())` — a SECOND clock read, distinct from the
`current_time = str(time.time())` read at line 5.  `t2` is the decimal
rendering of that second read. -/
def workflow_content (t2 : String) : String :=
  workflow_pre ++ t2 ++ workflow_suf

/-- The `settings.gradle` content of `ultimate_fix.py` (line 54): an
f-string embedding `current_time` (the first clock read, `t1`). -/
def settings_content (t1 : String) : String :=
  "// Updated: " ++ t1 ++ "\nrootProject.name = \x27Autonomous_Football_Game_V5\x27\ninclude \x27:app\x27"

/-- `root_build` of `ultimate_fix.py` (lines 57-76): an f-string
embedding `current_time` (the first clock read, `t1`). -/
def root_build (t1 : String) : String :=
  "// Force Update: " ++ t1 ++ "\nbuildscript \x7b\n    repositories \x7b\n        google()\n        mavenCentral()\n    \x7d\n    dependencies \x7b\n        classpath \x27com.android.tools.build:gradle:8.1.0\x27\n    \x7d\n\x7d\nallprojects \x7b\n    repositories \x7b\n        google()\n        mavenCentral()\n    \x7d\n\x7d\ntask clean(type: Delete) \x7b\n    delete rootProject.buildDir\n\x7d\n"

/-- `app_build` of `ultimate_fix.py` (lines 81-110): an f-string
embedding `current_time` (the first clock read, `t1`). -/
def app_build (t1 : String) : String :=
  "// Force Update: " ++ t1 ++ "\napply plugin: \x27com.android.application\x27\n\nandroid \x7b\n    namespace \x27com.ai.autonomous.game\x27\n    compileSdk 34\n\n    defaultConfig \x7b\n        applicationId \"com.ai.autonomous.game\"\n        minSdk 24\n        targetSdk 34\n        versionCode 1\n        versionName \"1.0\"\n\n        externalNativeBuild \x7b\n            cmake \x7b\n                cppFlags \"-std=c++20\"\n            \x7d\n        \x7d\n    \x7d\n\n    externalNativeBuild \x7b\n        cmake \x7b\n            path \"src/main/cpp/CMakeLists.txt\"\n        \x7d\n    \x7d\n    \n    ndkVersion \"25.1.8937393\"\n\x7d\n"

/-- The effectful statements of `ultimate_fix.py` in program order:
`os.makedirs(".github/workflows", exist_ok=True)` (line 45), four
writes (lines 46, 53, 77, 111), then the three version-control commands
(lines 120-122).  `t1` is `current_time = str(time.time())` captured at
line 5; `t2` is the rendering of the separate `int(time.time())` read
at line 41. -/
def steps (t1 t2 : String) : List Step :=
  [ .makedirs ".github/workflows",
    .write ".github/workflows/android.yml" (workflow_content t2),
    .write "settings.gradle" (settings_content t1),
    .write "build.gradle" (root_build t1),
    .write "app/build.gradle" (app_build t1),
    .system "git add .",
    .system "git commit -m \"Ultimate Fix: Upgrade Artifacts to v4 and Reset Gradle\"",
    .system "git push origin main --force" ]

end ultimate_fix

/-- A file system with no directories and no files: a bare working
directory. -/
def emptyFS : FS :=
  { dirs := fun _ => false, files := fun _ => none }

/-- A file system whose only directory is `app`, the layout the scripts
writing `app/build.gradle` rely on. -/
def appFS : FS :=
  { dirs := fun d => d == "app", files := fun _ => none }

/-- The oracle under which every path is externally writable. -/
def wAll : String → Bool := fun _ => true

/-- An exit-status environment: every external command reports success. -/
def eZero : String → Int := fun _ => 0

/-- An oracle refusing exactly the `build.gradle` write: models a
permission error on that one file. -/
def wNoBuild : String → Bool := fun p => !(p == "build.gradle")

/-- A file system whose only directory is `.github/workflows`: the
layout `fix_workflow.py` needs in order to succeed. -/
def githubFS : FS :=
  { dirs := fun d => d == ".github/workflows", files := fun _ => none }

/-- A file system with the `app` directory and a stale workflow file,
the situation `force_v4_update.py` is written for. -/
def staleFS : FS :=
  { dirs := fun d => d == "app" || d == ".github" || d == ".github/workflows",
    files := fun p => if p = ".github/workflows/android.yml" then some "old workflow" else none }

/-- Writing a file does not change which directories exist. -/
theorem FS.writeFile_dirs (fs : FS) (p c : String) : (fs.writeFile p c).dirs = fs.dirs := rfl

/-- Removing a file does not change which directories exist. -/
theorem FS.eraseFile_dirs (fs : FS) (p : String) : (fs.eraseFile p).dirs = fs.dirs := rfl

/-- Creating directories does not change any file. -/
theorem FS.mkdirs_files (fs : FS) (d : String) : (fs.mkdirs d).files = fs.files := rfl

/-- `settings.gradle` sits directly in the working directory, so its
parent always exists. -/
theorem parentOk_settings (fs : FS) : fs.parentOk "settings.gradle" = true := rfl

/-- `build.gradle` sits directly in the working directory, so its parent
always exists. -/
theorem parentOk_build (fs : FS) : fs.parentOk "build.gradle" = true := rfl

/-- The parent of `app/build.gradle` exists exactly when the directory
`app` does. -/
theorem parentOk_app_build (fs : FS) : fs.parentOk "app/build.gradle" = fs.dirs "app" := rfl

/-- The parent of the workflow file exists exactly when the directory
`.github/workflows` does. -/
theorem parentOk_workflow (fs : FS) :
    fs.parentOk ".github/workflows/android.yml" = fs.dirs ".github/workflows" := rfl

/-- After `os.makedirs(".github/workflows")` the directory
`.github/workflows` exists. -/
theorem mkdirs_workflows (fs : FS) : (fs.mkdirs ".github/workflows").dirs ".github/workflows" = true := rfl

/-- After `os.makedirs(".github/workflows")` the intermediate directory
`.github` exists as well. -/
theorem mkdirs_github (fs : FS) : (fs.mkdirs ".github/workflows").dirs ".github" = true := rfl

/-- `os.makedirs(".github/workflows")` does not create `app`. -/
theorem mkdirs_workflows_app (fs : FS) : (fs.mkdirs ".github/workflows").dirs "app" = fs.dirs "app" := rfl

/-- A single statement behaves the same under any two exit-status
environments: the scripts never inspect what `os.system` returns. -/
theorem runStep_exit_indep (w : String → Bool) (e e2 : String → Int) (fs : FS) (s : Step) :
    runStep w e fs s = runStep w e2 fs s := by
  cases s <;> rfl

/-- A whole run behaves the same under any two exit-status environments. -/
theorem runSteps_exit_indep (w : String → Bool) (e e2 : String → Int) :
    ∀ (steps : List Step) (fs : FS) (tr : List Event),
      runSteps w e fs tr steps = runSteps w e2 fs tr steps := by
  intro steps
  induction steps with
  | nil => intro fs tr; rfl
  | cons s rest ih =>
      intro fs tr
      simp only [runSteps]
      rw [runStep_exit_indep w e e2 fs s]
      cases h : runStep w e2 fs s with
      | none => rfl
      | some pair => exact ih pair.1 (tr ++ pair.2)

/-- Successful run of `modern_fix.py`: all three writes allowed and
`app` present. -/
theorem modern_fix_run_ok (fs : FS) (w : String → Bool) (e : String → Int)
    (h1 : w "settings.gradle" = true) (h2 : w "build.gradle" = true)
    (h3 : (fs.dirs "app" && w "app/build.gradle") = true) :
    runScript w e fs modern_fix.steps =
      .ok (((fs.writeFile "settings.gradle" modern_fix.settings_content).writeFile
              "build.gradle" modern_fix.root_build_content).writeFile
              "app/build.gradle" modern_fix.app_build_content)
          [ .writeEv "settings.gradle" modern_fix.settings_content,
            .writeEv "build.gradle" modern_fix.root_build_content,
            .writeEv "app/build.gradle" modern_fix.app_build_content,
            .systemEv "git add .",
            .systemEv "git commit -m \"Refactor: Force switch to Modern Gradle Plugins DSL\"",
            .systemEv "git push origin main --force" ] := by
  simp only [runScript, modern_fix.steps, runSteps, runStep, parentOk_settings,
    parentOk_build, parentOk_app_build, FS.writeFile_dirs, h1, h2, h3,
    Bool.and_self, Bool.true_and, if_true, List.nil_append, List.cons_append,
    List.append_nil]

/-- Run of `modern_fix.py` whose very first write is refused. -/
theorem modern_fix_run_err1 (fs : FS) (w : String → Bool) (e : String → Int)
    (h1 : w "settings.gradle" = false) :
    runScript w e fs modern_fix.steps = .err fs [] := by
  simp [runScript, modern_fix.steps, runSteps, runStep, parentOk_settings, h1]

/-- Run of `modern_fix.py` whose second write is refused. -/
theorem modern_fix_run_err2 (fs : FS) (w : String → Bool) (e : String → Int)
    (h1 : w "settings.gradle" = true) (h2 : w "build.gradle" = false) :
    runScript w e fs modern_fix.steps =
      .err (fs.writeFile "settings.gradle" modern_fix.settings_content)
        [.writeEv "settings.gradle" modern_fix.settings_content] := by
  simp [runScript, modern_fix.steps, runSteps, runStep, parentOk_settings, parentOk_build, h1, h2]

/-- Run of `modern_fix.py` whose third write fails (missing `app`
directory or refused write). -/
theorem modern_fix_run_err3 (fs : FS) (w : String → Bool) (e : String → Int)
    (h1 : w "settings.gradle" = true) (h2 : w "build.gradle" = true)
    (h3 : (fs.dirs "app" && w "app/build.gradle") = false) :
    runScript w e fs modern_fix.steps =
      .err ((fs.writeFile "settings.gradle" modern_fix.settings_content).writeFile
              "build.gradle" modern_fix.root_build_content)
        [.writeEv "settings.gradle" modern_fix.settings_content,
         .writeEv "build.gradle" modern_fix.root_build_content] := by
  simp [runScript, modern_fix.steps, runSteps, runStep, parentOk_settings, parentOk_build,
    parentOk_app_build, FS.writeFile_dirs, h1, h2, h3]

/-- Successful run of `modern_architect.py`. -/
theorem modern_architect_run_ok (fs : FS) (w : String → Bool) (e : String → Int)
    (h1 : w "settings.gradle" = true) (h2 : w "build.gradle" = true)
    (h3 : (fs.dirs "app" && w "app/build.gradle") = true) :
    runScript w e fs modern_architect.steps =
      .ok (((fs.writeFile "settings.gradle" modern_architect.settings_content).writeFile
              "build.gradle" modern_architect.root_build_content).writeFile
              "app/build.gradle" modern_architect.app_build_content)
          [ .writeEv "settings.gradle" modern_architect.settings_content,
            .writeEv "build.gradle" modern_architect.root_build_content,
            .writeEv "app/build.gradle" modern_architect.app_build_content,
            .systemEv "git add .",
            .systemEv "git commit -m \"Refactor: Switch to Modern Gradle Plugins DSL\"",
            .systemEv "git push origin main --force" ] := by
  simp only [runScript, modern_architect.steps, runSteps, runStep, parentOk_settings,
    parentOk_build, parentOk_app_build, FS.writeFile_dirs, h1, h2, h3,
    Bool.and_self, Bool.true_and, if_true, List.nil_append, List.cons_append,
    List.append_nil]

/-- Run of `modern_architect.py` whose first write is refused. -/
theorem modern_architect_run_err1 (fs : FS) (w : String → Bool) (e : String → Int)
    (h1 : w "settings.gradle" = false) :
    runScript w e fs modern_architect.steps = .err fs [] := by
  simp [runScript, modern_architect.steps, runSteps, runStep, parentOk_settings, h1]

/-- Run of `modern_architect.py` whose second write is refused. -/
theorem modern_architect_run_err2 (fs : FS) (w : String → Bool) (e : String → Int)
    (h1 : w "settings.gradle" = true) (h2 : w "build.gradle" = false) :
    runScript w e fs modern_architect.steps =
      .err (fs.writeFile "settings.gradle" modern_architect.settings_content)
        [.writeEv "settings.gradle" modern_architect.settings_content] := by
  simp [runScript, modern_architect.steps, runSteps, runStep, parentOk_settings,
    parentOk_build, h1, h2]

/-- Run of `modern_architect.py` whose third write fails. -/
theorem modern_architect_run_err3 (fs : FS) (w : String → Bool) (e : String → Int)
    (h1 : w "settings.gradle" = true) (h2 : w "build.gradle" = true)
    (h3 : (fs.dirs "app" && w "app/build.gradle") = false) :
    runScript w e fs modern_architect.steps =
      .err ((fs.writeFile "settings.gradle" modern_architect.settings_content).writeFile
              "build.gradle" modern_architect.root_build_content)
        [.writeEv "settings.gradle" modern_architect.settings_content,
         .writeEv "build.gradle" modern_architect.root_build_content] := by
  simp [runScript, modern_architect.steps, runSteps, runStep, parentOk_settings,
    parentOk_build, parentOk_app_build, FS.writeFile_dirs, h1, h2, h3]

/-- Successful run of `classic_rescue.py` with clock-read rendering `t`. -/
theorem classic_rescue_run_ok (t : String) (fs : FS) (w : String → Bool) (e : String → Int)
    (h1 : w "settings.gradle" = true) (h2 : w "build.gradle" = true)
    (h3 : (fs.dirs "app" && w "app/build.gradle") = true) :
    runScript w e fs (classic_rescue.steps t) =
      .ok (((fs.writeFile "settings.gradle" classic_rescue.settings_content).writeFile
              "build.gradle" (classic_rescue.root_build_content t)).writeFile
              "app/build.gradle" classic_rescue.app_build_content)
          [ .writeEv "settings.gradle" classic_rescue.settings_content,
            .writeEv "build.gradle" (classic_rescue.root_build_content t),
            .writeEv "app/build.gradle" classic_rescue.app_build_content,
            .systemEv "git add .",
            .systemEv "git commit -m \"Fix: Revert to Classic Gradle Layout to fix build error\"",
            .systemEv "git push origin main --force" ] := by
  simp only [runScript, classic_rescue.steps, runSteps, runStep, parentOk_settings,
    parentOk_build, parentOk_app_build, FS.writeFile_dirs, h1, h2, h3,
    Bool.and_self, Bool.true_and, if_true, List.nil_append, List.cons_append,
    List.append_nil]

/-- Run of `classic_rescue.py` whose first write is refused. -/
theorem classic_rescue_run_err1 (t : String) (fs : FS) (w : String → Bool) (e : String → Int)
    (h1 : w "settings.gradle" = false) :
    runScript w e fs (classic_rescue.steps t) = .err fs [] := by
  simp [runScript, classic_rescue.steps, runSteps, runStep, parentOk_settings, h1]

/-- Run of `classic_rescue.py` whose second write is refused. -/
theorem classic_rescue_run_err2 (t : String) (fs : FS) (w : String → Bool) (e : String → Int)
    (h1 : w "settings.gradle" = true) (h2 : w "build.gradle" = false) :
    runScript w e fs (classic_rescue.steps t) =
      .err (fs.writeFile "settings.gradle" classic_rescue.settings_content)
        [.writeEv "settings.gradle" classic_rescue.settings_content] := by
  simp [runScript, classic_rescue.steps, runSteps, runStep, parentOk_settings,
    parentOk_build, h1, h2]

/-- Run of `classic_rescue.py` whose third write fails. -/
theorem classic_rescue_run_err3 (t : String) (fs : FS) (w : String → Bool) (e : String → Int)
    (h1 : w "settings.gradle" = true) (h2 : w "build.gradle" = true)
    (h3 : (fs.dirs "app" && w "app/build.gradle") = false) :
    runScript w e fs (classic_rescue.steps t) =
      .err ((fs.writeFile "settings.gradle" classic_rescue.settings_content).writeFile
              "build.gradle" (classic_rescue.root_build_content t))
        [.writeEv "settings.gradle" classic_rescue.settings_content,
         .writeEv "build.gradle" (classic_rescue.root_build_content t)] := by
  simp [runScript, classic_rescue.steps, runSteps, runStep, parentOk_settings,
    parentOk_build, parentOk_app_build, FS.writeFile_dirs, h1, h2, h3]

/-- Successful run of `fix_full_game.py`: `app` must already exist
(nothing creates it), while `.github/workflows` is created by the
script itself. -/
theorem fix_full_game_run_ok (fs : FS) (w : String → Bool) (e : String → Int)
    (h1 : (fs.dirs "app" && w "app/build.gradle") = true)
    (h2 : w ".github/workflows/android.yml" = true) :
    runScript w e fs fix_full_game.steps =
      .ok (((fs.writeFile "app/build.gradle" fix_full_game.gradle_build_content).mkdirs
              ".github/workflows").writeFile
              ".github/workflows/android.yml" fix_full_game.workflow_content)
          [ .writeEv "app/build.gradle" fix_full_game.gradle_build_content,
            .writeEv ".github/workflows/android.yml" fix_full_game.workflow_content ] := by
  simp only [runScript, fix_full_game.steps, runSteps, runStep, parentOk_app_build,
    parentOk_workflow, mkdirs_workflows, FS.writeFile_dirs, h1, h2,
    Bool.and_self, Bool.true_and, if_true, List.nil_append, List.cons_append,
    List.append_nil]

/-- Run of `fix_full_game.py` whose first write fails: nothing at all is
written, and in particular the workflow directory is never created. -/
theorem fix_full_game_run_err1 (fs : FS) (w : String → Bool) (e : String → Int)
    (h1 : (fs.dirs "app" && w "app/build.gradle") = false) :
    runScript w e fs fix_full_game.steps = .err fs [] := by
  simp [runScript, fix_full_game.steps, runSteps, runStep, parentOk_app_build, h1]

/-- Run of `fix_full_game.py` whose workflow write is refused. -/
theorem fix_full_game_run_err2 (fs : FS) (w : String → Bool) (e : String → Int)
    (h1 : (fs.dirs "app" && w "app/build.gradle") = true)
    (h2 : w ".github/workflows/android.yml" = false) :
    runScript w e fs fix_full_game.steps =
      .err ((fs.writeFile "app/build.gradle" fix_full_game.gradle_build_content).mkdirs
              ".github/workflows")
        [.writeEv "app/build.gradle" fix_full_game.gradle_build_content] := by
  simp [runScript, fix_full_game.steps, runSteps, runStep, parentOk_app_build,
    parentOk_workflow, mkdirs_workflows, FS.writeFile_dirs, h1, h2]

/-- Successful run of `ultimate_fix.py` with first clock read `t1` and
second clock read `t2`. -/
theorem ultimate_fix_run_ok (t1 t2 : String) (fs : FS) (w : String → Bool) (e : String → Int)
    (h1 : w ".github/workflows/android.yml" = true)
    (h2 : w "settings.gradle" = true) (h3 : w "build.gradle" = true)
    (h4 : (fs.dirs "app" && w "app/build.gradle") = true) :
    runScript w e fs (ultimate_fix.steps t1 t2) =
      .ok (((((fs.mkdirs ".github/workflows").writeFile
                ".github/workflows/android.yml" (ultimate_fix.workflow_content t2)).writeFile
                "settings.gradle" (ultimate_fix.settings_content t1)).writeFile
                "build.gradle" (ultimate_fix.root_build t1)).writeFile
                "app/build.gradle" (ultimate_fix.app_build t1))
          [ .writeEv ".github/workflows/android.yml" (ultimate_fix.workflow_content t2),
            .writeEv "settings.gradle" (ultimate_fix.settings_content t1),
            .writeEv "build.gradle" (ultimate_fix.root_build t1),
            .writeEv "app/build.gradle" (ultimate_fix.app_build t1),
            .systemEv "git add .",
            .systemEv "git commit -m \"Ultimate Fix: Upgrade Artifacts to v4 and Reset Gradle\"",
            .systemEv "git push origin main --force" ] := by
  simp only [runScript, ultimate_fix.steps, runSteps, runStep, parentOk_settings,
    parentOk_build, parentOk_app_build, parentOk_workflow, mkdirs_workflows,
    mkdirs_workflows_app, FS.writeFile_dirs, h1, h2, h3, h4,
    Bool.and_self, Bool.true_and, if_true, List.nil_append, List.cons_append,
    List.append_nil]

/-- Run of `ultimate_fix.py` whose workflow write is refused: the
directory was still created. -/
theorem ultimate_fix_run_err1 (t1 t2 : String) (fs : FS) (w : String → Bool) (e : String → Int)
    (h1 : w ".github/workflows/android.yml" = false) :
    runScript w e fs (ultimate_fix.steps t1 t2) = .err (fs.mkdirs ".github/workflows") [] := by
  simp [runScript, ultimate_fix.steps, runSteps, runStep, parentOk_workflow,
    mkdirs_workflows, h1]

/-- Run of `ultimate_fix.py` whose `settings.gradle` write is refused. -/
theorem ultimate_fix_run_err2 (t1 t2 : String) (fs : FS) (w : String → Bool) (e : String → Int)
    (h1 : w ".github/workflows/android.yml" = true)
    (h2 : w "settings.gradle" = false) :
    runScript w e fs (ultimate_fix.steps t1 t2) =
      .err ((fs.mkdirs ".github/workflows").writeFile
              ".github/workflows/android.yml" (ultimate_fix.workflow_content t2))
        [.writeEv ".github/workflows/android.yml" (ultimate_fix.workflow_content t2)] := by
  simp [runScript, ultimate_fix.steps, runSteps, runStep, parentOk_workflow,
    parentOk_settings, mkdirs_workflows, FS.writeFile_dirs, h1, h2]

/-- Run of `ultimate_fix.py` whose `build.gradle` write is refused. -/
theorem ultimate_fix_run_err3 (t1 t2 : String) (fs : FS) (w : String → Bool) (e : String → Int)
    (h1 : w ".github/workflows/android.yml" = true)
    (h2 : w "settings.gradle" = true) (h3 : w "build.gradle" = false) :
    runScript w e fs (ultimate_fix.steps t1 t2) =
      .err (((fs.mkdirs ".github/workflows").writeFile
              ".github/workflows/android.yml" (ultimate_fix.workflow_content t2)).writeFile
              "settings.gradle" (ultimate_fix.settings_content t1))
        [.writeEv ".github/workflows/android.yml" (ultimate_fix.workflow_content t2),
         .writeEv "settings.gradle" (ultimate_fix.settings_content t1)] := by
  simp [runScript, ultimate_fix.steps, runSteps, runStep, parentOk_workflow,
    parentOk_settings, parentOk_build, mkdirs_workflows, FS.writeFile_dirs, h1, h2, h3]

/-- Run of `ultimate_fix.py` whose `app/build.gradle` write fails. -/
theorem ultimate_fix_run_err4 (t1 t2 : String) (fs : FS) (w : String → Bool) (e : String → Int)
    (h1 : w ".github/workflows/android.yml" = true)
    (h2 : w "settings.gradle" = true) (h3 : w "build.gradle" = true)
    (h4 : (fs.dirs "app" && w "app/build.gradle") = false) :
    runScript w e fs (ultimate_fix.steps t1 t2) =
      .err ((((fs.mkdirs ".github/workflows").writeFile
              ".github/workflows/android.yml" (ultimate_fix.workflow_content t2)).writeFile
              "settings.gradle" (ultimate_fix.settings_content t1)).writeFile
              "build.gradle" (ultimate_fix.root_build t1))
        [.writeEv ".github/workflows/android.yml" (ultimate_fix.workflow_content t2),
         .writeEv "settings.gradle" (ultimate_fix.settings_content t1),
         .writeEv "build.gradle" (ultimate_fix.root_build t1)] := by
  simp [runScript, ultimate_fix.steps, runSteps, runStep, parentOk_workflow,
    parentOk_settings, parentOk_build, parentOk_app_build, mkdirs_workflows,
    mkdirs_workflows_app, FS.writeFile_dirs, h1, h2, h3, h4]

/-- `os.path.dirname` of the workflow path, as computed at line 44 of
`force_v4_update.py`. -/
theorem dirname_workflow : dirname ".github/workflows/android.yml" = ".github/workflows" := rfl

/-- Successful run of `force_v4_update.py` when a stale workflow file is
present: it is removed first, then the new one is written. -/
theorem force_v4_run_ok_present (fs : FS) (w : String → Bool) (e : String → Int) (c0 : String)
    (hf : fs.files ".github/workflows/android.yml" = some c0)
    (hw : w ".github/workflows/android.yml" = true) :
    runScript w e fs force_v4_update.steps =
      .ok (((fs.eraseFile ".github/workflows/android.yml").mkdirs ".github/workflows").writeFile
              ".github/workflows/android.yml" force_v4_update.yaml_content)
          [ .removeEv ".github/workflows/android.yml",
            .writeEv ".github/workflows/android.yml" force_v4_update.yaml_content,
            .systemEv "git add .",
            .systemEv "git commit -m \"Force Update: Rewrite workflow with Actions V4\"",
            .systemEv "git push origin main --force" ] := by
  simp [runScript, force_v4_update.steps, force_v4_update.file_path, dirname_workflow, runSteps, runStep,
    FS.pathExists, osRemove, parentOk_workflow, mkdirs_workflows, FS.eraseFile_dirs,
    FS.writeFile_dirs, hf, hw]

/-- Successful run of `force_v4_update.py` when nothing is at the
workflow path: the guarded delete is skipped and the write proceeds. -/
theorem force_v4_run_ok_absent (fs : FS) (w : String → Bool) (e : String → Int)
    (hf : fs.files ".github/workflows/android.yml" = none)
    (hd : fs.dirs ".github/workflows/android.yml" = false)
    (hw : w ".github/workflows/android.yml" = true) :
    runScript w e fs force_v4_update.steps =
      .ok ((fs.mkdirs ".github/workflows").writeFile
              ".github/workflows/android.yml" force_v4_update.yaml_content)
          [ .writeEv ".github/workflows/android.yml" force_v4_update.yaml_content,
            .systemEv "git add .",
            .systemEv "git commit -m \"Force Update: Rewrite workflow with Actions V4\"",
            .systemEv "git push origin main --force" ] := by
  simp [runScript, force_v4_update.steps, force_v4_update.file_path, dirname_workflow, runSteps, runStep,
    FS.pathExists, osRemove, parentOk_workflow, mkdirs_workflows, FS.writeFile_dirs,
    hf, hd, hw]

/-- Run of `force_v4_update.py` when a directory (not a file) occupies
the workflow path: `os.path.exists` is true, `os.remove` raises, the
run aborts immediately. -/
theorem force_v4_run_err_dir (fs : FS) (w : String → Bool) (e : String → Int)
    (hf : fs.files ".github/workflows/android.yml" = none)
    (hd : fs.dirs ".github/workflows/android.yml" = true) :
    runScript w e fs force_v4_update.steps = .err fs [] := by
  simp [runScript, force_v4_update.steps, force_v4_update.file_path, dirname_workflow, runSteps, runStep,
    FS.pathExists, osRemove, hf, hd]

/-- Run of `force_v4_update.py` with a stale file present but the write
refused: the stale file is already gone, nothing replaces it. -/
theorem force_v4_run_err_present (fs : FS) (w : String → Bool) (e : String → Int) (c0 : String)
    (hf : fs.files ".github/workflows/android.yml" = some c0)
    (hw : w ".github/workflows/android.yml" = false) :
    runScript w e fs force_v4_update.steps =
      .err ((fs.eraseFile ".github/workflows/android.yml").mkdirs ".github/workflows")
        [.removeEv ".github/workflows/android.yml"] := by
  simp [runScript, force_v4_update.steps, force_v4_update.file_path, dirname_workflow, runSteps, runStep,
    FS.pathExists, osRemove, parentOk_workflow, mkdirs_workflows, FS.eraseFile_dirs,
    hf, hw]

/-- Run of `force_v4_update.py` with nothing at the workflow path and
the write refused. -/
theorem force_v4_run_err_absent (fs : FS) (w : String → Bool) (e : String → Int)
    (hf : fs.files ".github/workflows/android.yml" = none)
    (hd : fs.dirs ".github/workflows/android.yml" = false)
    (hw : w ".github/workflows/android.yml" = false) :
    runScript w e fs force_v4_update.steps =
      .err (fs.mkdirs ".github/workflows") [] := by
  simp [runScript, force_v4_update.steps, force_v4_update.file_path, dirname_workflow, runSteps, runStep,
    FS.pathExists, osRemove, parentOk_workflow, mkdirs_workflows, hf, hd, hw]

/-- Successful run of `fix_workflow.py`: its single write needs
`.github/workflows` to exist already, since the script never creates
directories. -/
theorem fix_workflow_run_ok (fs : FS) (w : String → Bool) (e : String → Int)
    (h1 : (fs.dirs ".github/workflows" && w ".github/workflows/android.yml") = true) :
    runScript w e fs fix_workflow.steps =
      .ok (fs.writeFile ".github/workflows/android.yml" fix_workflow.workflow_content)
          [.writeEv ".github/workflows/android.yml" fix_workflow.workflow_content] := by
  simp only [runScript, fix_workflow.steps, runSteps, runStep, parentOk_workflow, h1,
    if_true, List.nil_append]

/-- Failing run of `fix_workflow.py`: missing parent directory or
refused write. -/
theorem fix_workflow_run_err (fs : FS) (w : String → Bool) (e : String → Int)
    (h1 : (fs.dirs ".github/workflows" && w ".github/workflows/android.yml") = false) :
    runScript w e fs fix_workflow.steps = .err fs [] := by
  simp [runScript, fix_workflow.steps, runSteps, runStep, parentOk_workflow, h1]

/-- C1: for every artifact mapping supplied to a run (`fix_full_game.py`
and `modern_fix.py`, the cited materializers), after the run completes
normally every target path holds exactly the mapping's template value —
the truncating write leaves no remnant of any pre-existing content. -/
theorem claim1_materialization_exact :
    (∀ (fs : FS) (w : String → Bool) (e : String → Int),
        (runScript w e fs fix_full_game.steps).isOk = true →
          (runScript w e fs fix_full_game.steps).fsOf.files "app/build.gradle"
              = some fix_full_game.gradle_build_content
          ∧ (runScript w e fs fix_full_game.steps).fsOf.files ".github/workflows/android.yml"
              = some fix_full_game.workflow_content)
    ∧ (∀ (fs : FS) (w : String → Bool) (e : String → Int),
        (runScript w e fs modern_fix.steps).isOk = true →
          (runScript w e fs modern_fix.steps).fsOf.files "settings.gradle"
              = some modern_fix.settings_content
          ∧ (runScript w e fs modern_fix.steps).fsOf.files "build.gradle"
              = some modern_fix.root_build_content
          ∧ (runScript w e fs modern_fix.steps).fsOf.files "app/build.gradle"
              = some modern_fix.app_build_content) := by
  constructor
  · intro fs w e h
    cases h1 : (fs.dirs "app" && w "app/build.gradle") with
    | false => rw [fix_full_game_run_err1 fs w e h1] at h; simp [RunResult.isOk] at h
    | true =>
      cases h2 : w ".github/workflows/android.yml" with
      | false => rw [fix_full_game_run_err2 fs w e h1 h2] at h; simp [RunResult.isOk] at h
      | true =>
        rw [fix_full_game_run_ok fs w e h1 h2]
        exact ⟨rfl, rfl⟩
  · intro fs w e h
    cases h1 : w "settings.gradle" with
    | false => rw [modern_fix_run_err1 fs w e h1] at h; simp [RunResult.isOk] at h
    | true =>
      cases h2 : w "build.gradle" with
      | false => rw [modern_fix_run_err2 fs w e h1 h2] at h; simp [RunResult.isOk] at h
      | true =>
        cases h3 : (fs.dirs "app" && w "app/build.gradle") with
        | false => rw [modern_fix_run_err3 fs w e h1 h2 h3] at h; simp [RunResult.isOk] at h
        | true =>
          rw [modern_fix_run_ok fs w e h1 h2 h3]
          exact ⟨rfl, rfl, rfl⟩

/-- C1 witness: on a file system holding only the `app` directory, both
cited scripts complete and their targets hold exactly the templates. -/
theorem claim1_witness :
    ((runScript wAll eZero appFS fix_full_game.steps).isOk = true
      ∧ ((runScript wAll eZero appFS fix_full_game.steps).fsOf.files "app/build.gradle"
            = some fix_full_game.gradle_build_content
         ∧ (runScript wAll eZero appFS fix_full_game.steps).fsOf.files ".github/workflows/android.yml"
            = some fix_full_game.workflow_content))
    ∧ ((runScript wAll eZero appFS modern_fix.steps).isOk = true
      ∧ ((runScript wAll eZero appFS modern_fix.steps).fsOf.files "settings.gradle"
            = some modern_fix.settings_content
         ∧ (runScript wAll eZero appFS modern_fix.steps).fsOf.files "build.gradle"
            = some modern_fix.root_build_content
         ∧ (runScript wAll eZero appFS modern_fix.steps).fsOf.files "app/build.gradle"
            = some modern_fix.app_build_content)) :=
  ⟨⟨rfl, claim1_materialization_exact.1 appFS wAll eZero rfl⟩,
   ⟨rfl, claim1_materialization_exact.2 appFS wAll eZero rfl⟩⟩

/-- C2 counterexample: `fix_workflow.py` writes the workflow file with
no `os.makedirs` at all, so on a file system where `.github/workflows`
is missing the run aborts with nothing created and nothing written —
the claim that materialization always creates missing intermediate
directories and succeeds is false as stated. -/
theorem claim2_counterexample :
    emptyFS.dirs ".github/workflows" = false
    ∧ (runScript wAll eZero emptyFS fix_workflow.steps).isOk = false
    ∧ (runScript wAll eZero emptyFS fix_workflow.steps).fsOf.files ".github/workflows/android.yml" = none
    ∧ (runScript wAll eZero emptyFS fix_workflow.steps).fsOf.dirs ".github/workflows" = false :=
  ⟨rfl, rfl, rfl, rfl⟩

/-- C2 amended: only the writes that an `os.makedirs` call precedes get
their missing intermediate directories created; for them the write does
succeed from any initial state (shown for `force_v4_update.py`, whose
workflow write follows `os.makedirs(os.path.dirname(file_path))`).
`fix_workflow.py` performs no directory creation, so its write succeeds
only when `.github/workflows` already exists. -/
theorem claim2_amended_makedirs_only_where_called :
    (∀ (fs : FS) (w : String → Bool) (e : String → Int),
        w force_v4_update.file_path = true →
        fs.dirs force_v4_update.file_path = false →
          (runScript w e fs force_v4_update.steps).isOk = true
          ∧ (runScript w e fs force_v4_update.steps).fsOf.dirs ".github" = true
          ∧ (runScript w e fs force_v4_update.steps).fsOf.dirs ".github/workflows" = true
          ∧ (runScript w e fs force_v4_update.steps).fsOf.files force_v4_update.file_path
              = some force_v4_update.yaml_content)
    ∧ (∀ (fs : FS) (w : String → Bool) (e : String → Int),
        (runScript w e fs fix_workflow.steps).isOk = true →
          fs.dirs ".github/workflows" = true) := by
  constructor
  · intro fs w e hw hd
    cases hf : fs.files ".github/workflows/android.yml" with
    | none =>
        rw [force_v4_run_ok_absent fs w e hf hd hw]
        exact ⟨rfl, rfl, rfl, rfl⟩
    | some c0 =>
        rw [force_v4_run_ok_present fs w e c0 hf hw]
        exact ⟨rfl, rfl, rfl, rfl⟩
  · intro fs w e h
    cases h1 : (fs.dirs ".github/workflows" && w ".github/workflows/android.yml") with
    | false => rw [fix_workflow_run_err fs w e h1] at h; simp [RunResult.isOk] at h
    | true => rw [Bool.and_eq_true] at h1; exact h1.1

/-- C2 amended witness: from the bare working directory
`force_v4_update.py` creates `.github` and `.github/workflows` and
writes the workflow; `fix_workflow.py` succeeds on `githubFS`, whose
workflow directory indeed pre-exists. -/
theorem claim2_amended_witness :
    ((runScript wAll eZero emptyFS force_v4_update.steps).isOk = true
      ∧ (runScript wAll eZero emptyFS force_v4_update.steps).fsOf.dirs ".github" = true
      ∧ (runScript wAll eZero emptyFS force_v4_update.steps).fsOf.dirs ".github/workflows" = true
      ∧ (runScript wAll eZero emptyFS force_v4_update.steps).fsOf.files force_v4_update.file_path
          = some force_v4_update.yaml_content)
    ∧ githubFS.dirs ".github/workflows" = true :=
  ⟨claim2_amended_makedirs_only_where_called.1 emptyFS wAll eZero rfl rfl,
   claim2_amended_makedirs_only_where_called.2 githubFS wAll eZero rfl⟩

/-- C3 counterexample: a single run of `ultimate_fix.py` embeds TWO
clock reads, not one.  With the line-5 capture rendered `"100.5"` and
the line-41 `int(time.time())` read rendered `"200"`, the run writes
`root_build "100.5"` into `build.gradle` but `workflow_content "200"`
into the workflow file; and a second run sharing the same first capture
but a later second read (`"201"`) writes a different workflow artifact.
So the timestamp values appearing in one run's artifacts are not one
single captured value. -/
theorem claim3_counterexample :
    (runScript wAll eZero appFS (ultimate_fix.steps "100.5" "200")).fsOf.files "build.gradle"
        = some (ultimate_fix.root_build "100.5")
    ∧ (runScript wAll eZero appFS (ultimate_fix.steps "100.5" "200")).fsOf.files ".github/workflows/android.yml"
        = some (ultimate_fix.workflow_content "200")
    ∧ (runScript wAll eZero appFS (ultimate_fix.steps "100.5" "200")).fsOf.files ".github/workflows/android.yml"
        ≠ (runScript wAll eZero appFS (ultimate_fix.steps "100.5" "201")).fsOf.files ".github/workflows/android.yml" := by
  refine ⟨rfl, rfl, ?_⟩
  decide

/-- C3 amended: `ultimate_fix.py` reads the clock twice per run.  The
value captured once at line 5 (`t1`) is the only timestamp embedded in
`settings.gradle`, `build.gradle` and `app/build.gradle`; the separate
read at line 41 (`t2`) is the only timestamp embedded in the workflow
file.  `classic_rescue.py`, the other timestamp-embedding script, reads
the clock once and embeds it only in `build.gradle`. -/
theorem claim3_amended_two_clock_reads :
    (∀ (t1 t2 : String) (fs : FS) (w : String → Bool) (e : String → Int),
        (runScript w e fs (ultimate_fix.steps t1 t2)).isOk = true →
          (runScript w e fs (ultimate_fix.steps t1 t2)).fsOf.files ".github/workflows/android.yml"
              = some (ultimate_fix.workflow_content t2)
          ∧ (runScript w e fs (ultimate_fix.steps t1 t2)).fsOf.files "settings.gradle"
              = some (ultimate_fix.settings_content t1)
          ∧ (runScript w e fs (ultimate_fix.steps t1 t2)).fsOf.files "build.gradle"
              = some (ultimate_fix.root_build t1)
          ∧ (runScript w e fs (ultimate_fix.steps t1 t2)).fsOf.files "app/build.gradle"
              = some (ultimate_fix.app_build t1))
    ∧ (∀ (t : String) (fs : FS) (w : String → Bool) (e : String → Int),
        (runScript w e fs (classic_rescue.steps t)).isOk = true →
          (runScript w e fs (classic_rescue.steps t)).fsOf.files "build.gradle"
              = some (classic_rescue.root_build_content t)
          ∧ (runScript w e fs (classic_rescue.steps t)).fsOf.files "settings.gradle"
              = some classic_rescue.settings_content
          ∧ (runScript w e fs (classic_rescue.steps t)).fsOf.files "app/build.gradle"
              = some classic_rescue.app_build_content) := by
  constructor
  · intro t1 t2 fs w e h
    cases h1 : w ".github/workflows/android.yml" with
    | false => rw [ultimate_fix_run_err1 t1 t2 fs w e h1] at h; simp [RunResult.isOk] at h
    | true =>
      cases h2 : w "settings.gradle" with
      | false => rw [ultimate_fix_run_err2 t1 t2 fs w e h1 h2] at h; simp [RunResult.isOk] at h
      | true =>
        cases h3 : w "build.gradle" with
        | false => rw [ultimate_fix_run_err3 t1 t2 fs w e h1 h2 h3] at h; simp [RunResult.isOk] at h
        | true =>
          cases h4 : (fs.dirs "app" && w "app/build.gradle") with
          | false => rw [ultimate_fix_run_err4 t1 t2 fs w e h1 h2 h3 h4] at h; simp [RunResult.isOk] at h
          | true =>
            rw [ultimate_fix_run_ok t1 t2 fs w e h1 h2 h3 h4]
            exact ⟨rfl, rfl, rfl, rfl⟩
  · intro t fs w e h
    cases h1 : w "settings.gradle" with
    | false => rw [classic_rescue_run_err1 t fs w e h1] at h; simp [RunResult.isOk] at h
    | true =>
      cases h2 : w "build.gradle" with
      | false => rw [classic_rescue_run_err2 t fs w e h1 h2] at h; simp [RunResult.isOk] at h
      | true =>
        cases h3 : (fs.dirs "app" && w "app/build.gradle") with
        | false => rw [classic_rescue_run_err3 t fs w e h1 h2 h3] at h; simp [RunResult.isOk] at h
        | true =>
          rw [classic_rescue_run_ok t fs w e h1 h2 h3]
          exact ⟨rfl, rfl, rfl⟩

/-- C3 amended witness: concrete runs of both scripts on `appFS`. -/
theorem claim3_amended_witness :
    ((runScript wAll eZero appFS (ultimate_fix.steps "100.5" "200")).fsOf.files ".github/workflows/android.yml"
        = some (ultimate_fix.workflow_content "200")
      ∧ (runScript wAll eZero appFS (ultimate_fix.steps "100.5" "200")).fsOf.files "settings.gradle"
        = some (ultimate_fix.settings_content "100.5")
      ∧ (runScript wAll eZero appFS (ultimate_fix.steps "100.5" "200")).fsOf.files "build.gradle"
        = some (ultimate_fix.root_build "100.5")
      ∧ (runScript wAll eZero appFS (ultimate_fix.steps "100.5" "200")).fsOf.files "app/build.gradle"
        = some (ultimate_fix.app_build "100.5"))
    ∧ ((runScript wAll eZero appFS (classic_rescue.steps "42.0")).fsOf.files "build.gradle"
        = some (classic_rescue.root_build_content "42.0")
      ∧ (runScript wAll eZero appFS (classic_rescue.steps "42.0")).fsOf.files "settings.gradle"
        = some classic_rescue.settings_content
      ∧ (runScript wAll eZero appFS (classic_rescue.steps "42.0")).fsOf.files "app/build.gradle"
        = some classic_rescue.app_build_content) :=
  ⟨claim3_amended_two_clock_reads.1 "100.5" "200" appFS wAll eZero rfl,
   claim3_amended_two_clock_reads.2 "42.0" appFS wAll eZero rfl⟩

/-- C4: re-running materialization with the same mapping is
byte-identical apart from the timestamp splice.  `modern_architect.py`
embeds no run-time value at all: every completed run leaves the same
three byte strings, whatever the initial state, oracle or exit codes.
`classic_rescue.py` differs between runs only inside `build.gradle`,
and there only in the `str(time.time())` slice between the fixed prefix
`root_build_pre` and the fixed suffix `root_build_suf`; its other two
artifacts are fixed byte strings. -/
theorem claim4_rerun_identical_modulo_timestamp :
    (∀ (fs : FS) (w : String → Bool) (e : String → Int),
        (runScript w e fs modern_architect.steps).isOk = true →
          (runScript w e fs modern_architect.steps).fsOf.files "settings.gradle"
              = some modern_architect.settings_content
          ∧ (runScript w e fs modern_architect.steps).fsOf.files "build.gradle"
              = some modern_architect.root_build_content
          ∧ (runScript w e fs modern_architect.steps).fsOf.files "app/build.gradle"
              = some modern_architect.app_build_content)
    ∧ (∀ (t : String) (fs : FS) (w : String → Bool) (e : String → Int),
        (runScript w e fs (classic_rescue.steps t)).isOk = true →
          (runScript w e fs (classic_rescue.steps t)).fsOf.files "settings.gradle"
              = some classic_rescue.settings_content
          ∧ (runScript w e fs (classic_rescue.steps t)).fsOf.files "app/build.gradle"
              = some classic_rescue.app_build_content
          ∧ (runScript w e fs (classic_rescue.steps t)).fsOf.files "build.gradle"
              = some (classic_rescue.root_build_pre ++ t ++ classic_rescue.root_build_suf)) := by
  constructor
  · intro fs w e h
    cases h1 : w "settings.gradle" with
    | false => rw [modern_architect_run_err1 fs w e h1] at h; simp [RunResult.isOk] at h
    | true =>
      cases h2 : w "build.gradle" with
      | false => rw [modern_architect_run_err2 fs w e h1 h2] at h; simp [RunResult.isOk] at h
      | true =>
        cases h3 : (fs.dirs "app" && w "app/build.gradle") with
        | false => rw [modern_architect_run_err3 fs w e h1 h2 h3] at h; simp [RunResult.isOk] at h
        | true =>
          rw [modern_architect_run_ok fs w e h1 h2 h3]
          exact ⟨rfl, rfl, rfl⟩
  · intro t fs w e h
    cases h1 : w "settings.gradle" with
    | false => rw [classic_rescue_run_err1 t fs w e h1] at h; simp [RunResult.isOk] at h
    | true =>
      cases h2 : w "build.gradle" with
      | false => rw [classic_rescue_run_err2 t fs w e h1 h2] at h; simp [RunResult.isOk] at h
      | true =>
        cases h3 : (fs.dirs "app" && w "app/build.gradle") with
        | false => rw [classic_rescue_run_err3 t fs w e h1 h2 h3] at h; simp [RunResult.isOk] at h
        | true =>
          rw [classic_rescue_run_ok t fs w e h1 h2 h3]
          exact ⟨rfl, rfl, rfl⟩

/-- C4 witness: two concrete completed runs. -/
theorem claim4_witness :
    ((runScript wAll eZero appFS modern_architect.steps).fsOf.files "settings.gradle"
        = some modern_architect.settings_content
      ∧ (runScript wAll eZero appFS modern_architect.steps).fsOf.files "build.gradle"
        = some modern_architect.root_build_content
      ∧ (runScript wAll eZero appFS modern_architect.steps).fsOf.files "app/build.gradle"
        = some modern_architect.app_build_content)
    ∧ ((runScript wAll eZero appFS (classic_rescue.steps "7.25")).fsOf.files "settings.gradle"
        = some classic_rescue.settings_content
      ∧ (runScript wAll eZero appFS (classic_rescue.steps "7.25")).fsOf.files "app/build.gradle"
        = some classic_rescue.app_build_content
      ∧ (runScript wAll eZero appFS (classic_rescue.steps "7.25")).fsOf.files "build.gradle"
        = some (classic_rescue.root_build_pre ++ "7.25" ++ classic_rescue.root_build_suf)) :=
  ⟨claim4_rerun_identical_modulo_timestamp.1 appFS wAll eZero rfl,
   claim4_rerun_identical_modulo_timestamp.2 "7.25" appFS wAll eZero rfl⟩

/-- C5: the delete-then-materialize variant (`force_v4_update.py`) on an
existing path: the run completes, the trace shows the removal strictly
before the new write (observable replacement), and afterwards the path
holds exactly the new template — nothing of the old content remains. -/
theorem claim5_delete_then_materialize :
    ∀ (fs : FS) (w : String → Bool) (e : String → Int) (c0 : String),
      fs.files force_v4_update.file_path = some c0 →
      w force_v4_update.file_path = true →
        (runScript w e fs force_v4_update.steps).isOk = true
        ∧ (runScript w e fs force_v4_update.steps).traceOf
            = [ .removeEv force_v4_update.file_path,
                .writeEv force_v4_update.file_path force_v4_update.yaml_content,
                .systemEv "git add .",
                .systemEv "git commit -m \"Force Update: Rewrite workflow with Actions V4\"",
                .systemEv "git push origin main --force" ]
        ∧ (runScript w e fs force_v4_update.steps).fsOf.files force_v4_update.file_path
            = some force_v4_update.yaml_content := by
  intro fs w e c0 hf hw
  rw [force_v4_run_ok_present fs w e c0 hf hw]
  exact ⟨rfl, rfl, rfl⟩

/-- C5 witness: `staleFS` holds an old workflow file; the run replaces
it observably. -/
theorem claim5_witness :
    (runScript wAll eZero staleFS force_v4_update.steps).isOk = true
    ∧ (runScript wAll eZero staleFS force_v4_update.steps).traceOf
        = [ .removeEv force_v4_update.file_path,
            .writeEv force_v4_update.file_path force_v4_update.yaml_content,
            .systemEv "git add .",
            .systemEv "git commit -m \"Force Update: Rewrite workflow with Actions V4\"",
            .systemEv "git push origin main --force" ]
    ∧ (runScript wAll eZero staleFS force_v4_update.steps).fsOf.files force_v4_update.file_path
        = some force_v4_update.yaml_content :=
  claim5_delete_then_materialize staleFS wAll eZero "old workflow" rfl rfl

/-- C6: when a write of `modern_fix.py` raises, the run stops there: no
version-control command has been issued, the performed writes form a
prefix of the script's write sequence (nothing later was written), and
every file already written still holds exactly what was written to it —
no rollback. -/
theorem claim6_write_failure_aborts :
    ∀ (fs : FS) (w : String → Bool) (e : String → Int),
      (runScript w e fs modern_fix.steps).isOk = false →
        ((runScript w e fs modern_fix.steps).traceOf.all fun ev => !ev.isSystem) = true
        ∧ (∃ rest,
            [ Event.writeEv "settings.gradle" modern_fix.settings_content,
              Event.writeEv "build.gradle" modern_fix.root_build_content,
              Event.writeEv "app/build.gradle" modern_fix.app_build_content ]
              = (runScript w e fs modern_fix.steps).traceOf ++ rest)
        ∧ (∀ (p c : String),
            Event.writeEv p c ∈ (runScript w e fs modern_fix.steps).traceOf →
              (runScript w e fs modern_fix.steps).fsOf.files p = some c) := by
  intro fs w e h
  cases h1 : w "settings.gradle" with
  | false =>
      rw [modern_fix_run_err1 fs w e h1]
      refine ⟨rfl, ⟨_, rfl⟩, ?_⟩
      intro p c hp
      exact absurd hp (List.not_mem_nil _)
  | true =>
    cases h2 : w "build.gradle" with
    | false =>
        rw [modern_fix_run_err2 fs w e h1 h2]
        refine ⟨rfl, ⟨[Event.writeEv "build.gradle" modern_fix.root_build_content,
          Event.writeEv "app/build.gradle" modern_fix.app_build_content], rfl⟩, ?_⟩
        intro p c hp
        obtain ⟨rfl, rfl⟩ := Event.writeEv.inj (List.mem_singleton.mp hp)
        rfl
    | true =>
      cases h3 : (fs.dirs "app" && w "app/build.gradle") with
      | false =>
          rw [modern_fix_run_err3 fs w e h1 h2 h3]
          refine ⟨rfl, ⟨[Event.writeEv "app/build.gradle" modern_fix.app_build_content], rfl⟩, ?_⟩
          intro p c hp
          rcases List.mem_cons.mp hp with h4 | h4
          · obtain ⟨rfl, rfl⟩ := Event.writeEv.inj h4
            rfl
          · obtain ⟨rfl, rfl⟩ := Event.writeEv.inj (List.mem_singleton.mp h4)
            rfl
      | true =>
          rw [modern_fix_run_ok fs w e h1 h2 h3] at h
          simp [RunResult.isOk] at h

/-- C6 witness: a permission failure on `build.gradle` aborts the run of
`modern_fix.py` after its first write. -/
theorem claim6_witness :
    ((runScript wNoBuild eZero appFS modern_fix.steps).traceOf.all fun ev => !ev.isSystem) = true
    ∧ (∃ rest,
        [ Event.writeEv "settings.gradle" modern_fix.settings_content,
          Event.writeEv "build.gradle" modern_fix.root_build_content,
          Event.writeEv "app/build.gradle" modern_fix.app_build_content ]
          = (runScript wNoBuild eZero appFS modern_fix.steps).traceOf ++ rest)
    ∧ (∀ (p c : String),
        Event.writeEv p c ∈ (runScript wNoBuild eZero appFS modern_fix.steps).traceOf →
          (runScript wNoBuild eZero appFS modern_fix.steps).fsOf.files p = some c) :=
  claim6_write_failure_aborts appFS wNoBuild eZero rfl

/-- Any completed run of `force_v4_update.py` leaves exactly the new
template at the workflow path, whatever the initial state. -/
theorem force_v4_ok_files (fs : FS) (w : String → Bool) (e : String → Int)
    (h : (runScript w e fs force_v4_update.steps).isOk = true) :
    (runScript w e fs force_v4_update.steps).fsOf.files ".github/workflows/android.yml"
      = some force_v4_update.yaml_content := by
  cases hf : fs.files ".github/workflows/android.yml" with
  | some c0 =>
      cases hw : w ".github/workflows/android.yml" with
      | false => rw [force_v4_run_err_present fs w e c0 hf hw] at h; simp [RunResult.isOk] at h
      | true => rw [force_v4_run_ok_present fs w e c0 hf hw]; rfl
  | none =>
      cases hd : fs.dirs ".github/workflows/android.yml" with
      | true => rw [force_v4_run_err_dir fs w e hf hd] at h; simp [RunResult.isOk] at h
      | false =>
        cases hw : w ".github/workflows/android.yml" with
        | false => rw [force_v4_run_err_absent fs w e hf hd hw] at h; simp [RunResult.isOk] at h
        | true => rw [force_v4_run_ok_absent fs w e hf hd hw]; rfl

/-- C7: exit statuses of the version-control commands are ignored.  Each
publishing script behaves identically under any two exit-status
environments — a non-zero exit neither aborts the run nor undoes
anything — and an `os.system` step always succeeds and leaves the file
system untouched. -/
theorem claim7_exit_status_ignored :
    (∀ (w : String → Bool) (e e2 : String → Int) (fs : FS) (t : String),
        runScript w e fs (classic_rescue.steps t) = runScript w e2 fs (classic_rescue.steps t))
    ∧ (∀ (w : String → Bool) (e e2 : String → Int) (fs : FS) (t1 t2 : String),
        runScript w e fs (ultimate_fix.steps t1 t2) = runScript w e2 fs (ultimate_fix.steps t1 t2))
    ∧ (∀ (w : String → Bool) (e e2 : String → Int) (fs : FS),
        runScript w e fs modern_fix.steps = runScript w e2 fs modern_fix.steps)
    ∧ (∀ (w : String → Bool) (e e2 : String → Int) (fs : FS),
        runScript w e fs modern_architect.steps = runScript w e2 fs modern_architect.steps)
    ∧ (∀ (w : String → Bool) (e e2 : String → Int) (fs : FS),
        runScript w e fs force_v4_update.steps = runScript w e2 fs force_v4_update.steps)
    ∧ (∀ (w : String → Bool) (e : String → Int) (fs : FS) (cmd : String),
        runStep w e fs (.system cmd) = some (fs, [.systemEv cmd])) :=
  ⟨fun w e e2 fs t => runSteps_exit_indep w e e2 (classic_rescue.steps t) fs [],
   fun w e e2 fs t1 t2 => runSteps_exit_indep w e e2 (ultimate_fix.steps t1 t2) fs [],
   fun w e e2 fs => runSteps_exit_indep w e e2 modern_fix.steps fs [],
   fun w e e2 fs => runSteps_exit_indep w e e2 modern_architect.steps fs [],
   fun w e e2 fs => runSteps_exit_indep w e e2 force_v4_update.steps fs [],
   fun _ _ _ _ => rfl⟩

/-- C8: execution is strictly sequential.  In every completed run of the
cited publishing scripts the trace is exactly the writes in program
order followed by stage, commit, push in that order; and in every
aborted run no version-control command has been issued at all. -/
theorem claim8_writes_then_publish_in_order :
    (∀ (t : String) (fs : FS) (w : String → Bool) (e : String → Int),
        (runScript w e fs (classic_rescue.steps t)).isOk = true →
          (runScript w e fs (classic_rescue.steps t)).traceOf
            = [ .writeEv "settings.gradle" classic_rescue.settings_content,
                .writeEv "build.gradle" (classic_rescue.root_build_content t),
                .writeEv "app/build.gradle" classic_rescue.app_build_content,
                .systemEv "git add .",
                .systemEv "git commit -m \"Fix: Revert to Classic Gradle Layout to fix build error\"",
                .systemEv "git push origin main --force" ])
    ∧ (∀ (t : String) (fs : FS) (w : String → Bool) (e : String → Int),
        (runScript w e fs (classic_rescue.steps t)).isOk = false →
          ((runScript w e fs (classic_rescue.steps t)).traceOf.all fun ev => !ev.isSystem) = true)
    ∧ (∀ (t1 t2 : String) (fs : FS) (w : String → Bool) (e : String → Int),
        (runScript w e fs (ultimate_fix.steps t1 t2)).isOk = true →
          (runScript w e fs (ultimate_fix.steps t1 t2)).traceOf
            = [ .writeEv ".github/workflows/android.yml" (ultimate_fix.workflow_content t2),
                .writeEv "settings.gradle" (ultimate_fix.settings_content t1),
                .writeEv "build.gradle" (ultimate_fix.root_build t1),
                .writeEv "app/build.gradle" (ultimate_fix.app_build t1),
                .systemEv "git add .",
                .systemEv "git commit -m \"Ultimate Fix: Upgrade Artifacts to v4 and Reset Gradle\"",
                .systemEv "git push origin main --force" ])
    ∧ (∀ (t1 t2 : String) (fs : FS) (w : String → Bool) (e : String → Int),
        (runScript w e fs (ultimate_fix.steps t1 t2)).isOk = false →
          ((runScript w e fs (ultimate_fix.steps t1 t2)).traceOf.all fun ev => !ev.isSystem) = true) := by
  refine ⟨?_, ?_, ?_, ?_⟩
  · intro t fs w e h
    cases h1 : w "settings.gradle" with
    | false => rw [classic_rescue_run_err1 t fs w e h1] at h; simp [RunResult.isOk] at h
    | true =>
      cases h2 : w "build.gradle" with
      | false => rw [classic_rescue_run_err2 t fs w e h1 h2] at h; simp [RunResult.isOk] at h
      | true =>
        cases h3 : (fs.dirs "app" && w "app/build.gradle") with
        | false => rw [classic_rescue_run_err3 t fs w e h1 h2 h3] at h; simp [RunResult.isOk] at h
        | true => rw [classic_rescue_run_ok t fs w e h1 h2 h3]; rfl
  · intro t fs w e h
    cases h1 : w "settings.gradle" with
    | false => rw [classic_rescue_run_err1 t fs w e h1]; rfl
    | true =>
      cases h2 : w "build.gradle" with
      | false => rw [classic_rescue_run_err2 t fs w e h1 h2]; rfl
      | true =>
        cases h3 : (fs.dirs "app" && w "app/build.gradle") with
        | false => rw [classic_rescue_run_err3 t fs w e h1 h2 h3]; rfl
        | true => rw [classic_rescue_run_ok t fs w e h1 h2 h3] at h; simp [RunResult.isOk] at h
  · intro t1 t2 fs w e h
    cases h1 : w ".github/workflows/android.yml" with
    | false => rw [ultimate_fix_run_err1 t1 t2 fs w e h1] at h; simp [RunResult.isOk] at h
    | true =>
      cases h2 : w "settings.gradle" with
      | false => rw [ultimate_fix_run_err2 t1 t2 fs w e h1 h2] at h; simp [RunResult.isOk] at h
      | true =>
        cases h3 : w "build.gradle" with
        | false => rw [ultimate_fix_run_err3 t1 t2 fs w e h1 h2 h3] at h; simp [RunResult.isOk] at h
        | true =>
          cases h4 : (fs.dirs "app" && w "app/build.gradle") with
          | false => rw [ultimate_fix_run_err4 t1 t2 fs w e h1 h2 h3 h4] at h; simp [RunResult.isOk] at h
          | true => rw [ultimate_fix_run_ok t1 t2 fs w e h1 h2 h3 h4]; rfl
  · intro t1 t2 fs w e h
    cases h1 : w ".github/workflows/android.yml" with
    | false => rw [ultimate_fix_run_err1 t1 t2 fs w e h1]; rfl
    | true =>
      cases h2 : w "settings.gradle" with
      | false => rw [ultimate_fix_run_err2 t1 t2 fs w e h1 h2]; rfl
      | true =>
        cases h3 : w "build.gradle" with
        | false => rw [ultimate_fix_run_err3 t1 t2 fs w e h1 h2 h3]; rfl
        | true =>
          cases h4 : (fs.dirs "app" && w "app/build.gradle") with
          | false => rw [ultimate_fix_run_err4 t1 t2 fs w e h1 h2 h3 h4]; rfl
          | true => rw [ultimate_fix_run_ok t1 t2 fs w e h1 h2 h3 h4] at h; simp [RunResult.isOk] at h

/-- C8 witness: one completed and one aborted concrete run of each of
the two cited scripts. -/
theorem claim8_witness :
    ((runScript wAll eZero appFS (classic_rescue.steps "9.5")).traceOf
        = [ .writeEv "settings.gradle" classic_rescue.settings_content,
            .writeEv "build.gradle" (classic_rescue.root_build_content "9.5"),
            .writeEv "app/build.gradle" classic_rescue.app_build_content,
            .systemEv "git add .",
            .systemEv "git commit -m \"Fix: Revert to Classic Gradle Layout to fix build error\"",
            .systemEv "git push origin main --force" ])
    ∧ ((runScript wNoBuild eZero appFS (classic_rescue.steps "9.5")).traceOf.all
          fun ev => !ev.isSystem) = true
    ∧ ((runScript wAll eZero appFS (ultimate_fix.steps "9.5" "9")).traceOf
        = [ .writeEv ".github/workflows/android.yml" (ultimate_fix.workflow_content "9"),
            .writeEv "settings.gradle" (ultimate_fix.settings_content "9.5"),
            .writeEv "build.gradle" (ultimate_fix.root_build "9.5"),
            .writeEv "app/build.gradle" (ultimate_fix.app_build "9.5"),
            .systemEv "git add .",
            .systemEv "git commit -m \"Ultimate Fix: Upgrade Artifacts to v4 and Reset Gradle\"",
            .systemEv "git push origin main --force" ])
    ∧ ((runScript wNoBuild eZero appFS (ultimate_fix.steps "9.5" "9")).traceOf.all
          fun ev => !ev.isSystem) = true :=
  ⟨claim8_writes_then_publish_in_order.1 "9.5" appFS wAll eZero rfl,
   claim8_writes_then_publish_in_order.2.1 "9.5" appFS wNoBuild eZero rfl,
   claim8_writes_then_publish_in_order.2.2.1 "9.5" "9" appFS wAll eZero rfl,
   claim8_writes_then_publish_in_order.2.2.2 "9.5" "9" appFS wNoBuild eZero rfl⟩

/-- C9: the delete-before-write of `force_v4_update.py` is guarded by
`os.path.exists`, so on an absent target the deletion is skipped
without raising, and in either case (target present or absent, the path
not being a directory) the run proceeds and writes the new content. -/
theorem claim9_guarded_delete_never_raises :
    (∀ (fs : FS) (w : String → Bool) (e : String → Int) (p : String),
        fs.files p = none → fs.dirs p = false →
          runStep w e fs (.ifExistsRemove p) = some (fs, []))
    ∧ (∀ (fs : FS) (w : String → Bool) (e : String → Int),
        w force_v4_update.file_path = true →
        fs.dirs force_v4_update.file_path = false →
          (runScript w e fs force_v4_update.steps).isOk = true
          ∧ (runScript w e fs force_v4_update.steps).fsOf.files force_v4_update.file_path
              = some force_v4_update.yaml_content) := by
  constructor
  · intro fs w e p hf hd
    simp [runStep, FS.pathExists, hf, hd]
  · intro fs w e hw hd
    cases hf : fs.files ".github/workflows/android.yml" with
    | none => rw [force_v4_run_ok_absent fs w e hf hd hw]; exact ⟨rfl, rfl⟩
    | some c0 => rw [force_v4_run_ok_present fs w e c0 hf hw]; exact ⟨rfl, rfl⟩

/-- C9 witness: on the bare working directory the guarded delete is a
no-op and the whole script still completes and writes the workflow. -/
theorem claim9_witness :
    runStep wAll eZero emptyFS (.ifExistsRemove "settings.gradle") = some (emptyFS, [])
    ∧ ((runScript wAll eZero emptyFS force_v4_update.steps).isOk = true
       ∧ (runScript wAll eZero emptyFS force_v4_update.steps).fsOf.files force_v4_update.file_path
           = some force_v4_update.yaml_content) :=
  ⟨claim9_guarded_delete_never_raises.1 emptyFS wAll eZero "settings.gradle" rfl rfl,
   claim9_guarded_delete_never_raises.2 emptyFS wAll eZero rfl rfl⟩

/-- C10: no script reads existing file content, so the bytes written are
independent of the initial contents of the target files.  For
`modern_architect.py`, two runs differing only in initial file contents
have the same outcome status and, when completed, identical bytes at
every target path; for `force_v4_update.py`, any two completed runs
over the same directories leave identical bytes at the workflow path. -/
theorem claim10_noninterference_from_prior_contents :
    (∀ (d : String → Bool) (f1 f2 : String → Option String) (w : String → Bool) (e : String → Int),
        (runScript w e ⟨d, f1⟩ modern_architect.steps).isOk
            = (runScript w e ⟨d, f2⟩ modern_architect.steps).isOk
        ∧ ((runScript w e ⟨d, f1⟩ modern_architect.steps).isOk = true →
            (runScript w e ⟨d, f1⟩ modern_architect.steps).fsOf.files "settings.gradle"
              = (runScript w e ⟨d, f2⟩ modern_architect.steps).fsOf.files "settings.gradle"
            ∧ (runScript w e ⟨d, f1⟩ modern_architect.steps).fsOf.files "build.gradle"
              = (runScript w e ⟨d, f2⟩ modern_architect.steps).fsOf.files "build.gradle"
            ∧ (runScript w e ⟨d, f1⟩ modern_architect.steps).fsOf.files "app/build.gradle"
              = (runScript w e ⟨d, f2⟩ modern_architect.steps).fsOf.files "app/build.gradle"))
    ∧ (∀ (d : String → Bool) (f1 f2 : String → Option String) (w : String → Bool) (e : String → Int),
        (runScript w e ⟨d, f1⟩ force_v4_update.steps).isOk = true →
        (runScript w e ⟨d, f2⟩ force_v4_update.steps).isOk = true →
          (runScript w e ⟨d, f1⟩ force_v4_update.steps).fsOf.files force_v4_update.file_path
            = (runScript w e ⟨d, f2⟩ force_v4_update.steps).fsOf.files force_v4_update.file_path) := by
  constructor
  · intro d f1 f2 w e
    cases h1 : w "settings.gradle" with
    | false =>
        rw [modern_architect_run_err1 ⟨d, f1⟩ w e h1, modern_architect_run_err1 ⟨d, f2⟩ w e h1]
        exact ⟨rfl, fun h => by simp [RunResult.isOk] at h⟩
    | true =>
      cases h2 : w "build.gradle" with
      | false =>
          rw [modern_architect_run_err2 ⟨d, f1⟩ w e h1 h2,
            modern_architect_run_err2 ⟨d, f2⟩ w e h1 h2]
          exact ⟨rfl, fun h => by simp [RunResult.isOk] at h⟩
      | true =>
        cases h3 : (d "app" && w "app/build.gradle") with
        | false =>
            rw [modern_architect_run_err3 ⟨d, f1⟩ w e h1 h2 h3,
              modern_architect_run_err3 ⟨d, f2⟩ w e h1 h2 h3]
            exact ⟨rfl, fun h => by simp [RunResult.isOk] at h⟩
        | true =>
            rw [modern_architect_run_ok ⟨d, f1⟩ w e h1 h2 h3,
              modern_architect_run_ok ⟨d, f2⟩ w e h1 h2 h3]
            exact ⟨rfl, fun _ => ⟨rfl, rfl, rfl⟩⟩
  · intro d f1 f2 w e h1 h2
    simp only [force_v4_update.file_path]
    rw [force_v4_ok_files ⟨d, f1⟩ w e h1, force_v4_ok_files ⟨d, f2⟩ w e h2]

/-- C10 witness: an empty and a populated initial file table lead to the
same completed outcome and the same written bytes. -/
theorem claim10_witness :
    ((runScript wAll eZero ⟨appFS.dirs, appFS.files⟩ modern_architect.steps).fsOf.files "settings.gradle"
        = (runScript wAll eZero ⟨appFS.dirs, staleFS.files⟩ modern_architect.steps).fsOf.files "settings.gradle"
      ∧ (runScript wAll eZero ⟨appFS.dirs, appFS.files⟩ modern_architect.steps).fsOf.files "build.gradle"
        = (runScript wAll eZero ⟨appFS.dirs, staleFS.files⟩ modern_architect.steps).fsOf.files "build.gradle"
      ∧ (runScript wAll eZero ⟨appFS.dirs, appFS.files⟩ modern_architect.steps).fsOf.files "app/build.gradle"
        = (runScript wAll eZero ⟨appFS.dirs, staleFS.files⟩ modern_architect.steps).fsOf.files "app/build.gradle")
    ∧ (runScript wAll eZero ⟨appFS.dirs, appFS.files⟩ force_v4_update.steps).fsOf.files force_v4_update.file_path
        = (runScript wAll eZero ⟨appFS.dirs, staleFS.files⟩ force_v4_update.steps).fsOf.files force_v4_update.file_path :=
  ⟨(claim10_noninterference_from_prior_contents.1 appFS.dirs appFS.files staleFS.files wAll eZero).2 rfl,
   claim10_noninterference_from_prior_contents.2 appFS.dirs appFS.files staleFS.files wAll eZero rfl rfl⟩
